import Mathlib

/-!
Verification development for the Visual Scene Composer stage
(`src/Stage.tsx`).  The TypeScript source is shallowly embedded below:
pure functions become Lean functions, the orchestrator's mutable
`visualState` becomes explicit state passing, network calls (`axios`)
and `Math.random()` become environment parameters, and thrown JS
exceptions become `Except` values.  All definitions are executable.
-/

/-! ### JavaScript-style helpers -/

/-- JS truthiness of an optional string: `undefined`/`null` and the empty
string are falsy, every other string is truthy. -/
def strTruthy : Option String → Bool
  | none => false
  | some s => s != ""

/-- JS `a || b` on optional strings: yields `a` when `a` is truthy,
otherwise `b`. -/
def jsOrStr (a b : Option String) : Option String :=
  if strTruthy a then a else b

/-- JS `s || d` for a plain string `s` with default `d` (empty string is
falsy), as used for the extraction defaults in `parseSceneContext`. -/
def jsOrDefault (s d : String) : String :=
  if s = "" then d else s

/-- ASCII lower-casing of one character, the effect of JS
`toLowerCase()` on the ASCII inputs of this stage (`Char.toLower`
itself only maps ASCII letters). -/
def toLowerCase (s : String) : String :=
  String.mk (s.data.map Char.toLower)

/-! ### Character classes used by the extraction regexes -/

def isAsciiUpper (c : Char) : Bool := 'A' ≤ c && c ≤ 'Z'

def isAsciiLower (c : Char) : Bool := 'a' ≤ c && c ≤ 'z'

def isAsciiLetter (c : Char) : Bool := isAsciiUpper c || isAsciiLower c

def isAsciiDigit (c : Char) : Bool := '0' ≤ c && c ≤ '9'

/-- JS regex word character `\w` = `[A-Za-z0-9_]`. -/
def isWordChar (c : Char) : Bool := isAsciiLetter c || isAsciiDigit c || c == '_'

/-- JS regex whitespace `\s` (the ASCII members; the chat text contains
only plain spaces). -/
def isSpaceChar (c : Char) : Bool :=
  c == ' ' || c == '\t' || c == '\n' || c == '\r' || c == '\x0b' || c == '\x0c'

/-- JS `\b` immediately before a word character holds exactly when the
preceding character (if any) is not a word character.  All the character
patterns of `extractCharacters` start with `\b` followed by a letter. -/
def boundaryBeforeWord : Option Char → Bool
  | none => true
  | some c => !isWordChar c

/-! ### Regex building blocks

Each matcher takes the character preceding the current position (for
the `\b` test) and the remaining input, and returns the captured name
together with the input left over after the whole match.  The regexes of
`extractCharacters` never need backtracking: every greedy run
(`[a-z]+`, `\s+`, `\.?`) is followed by a character from a disjoint
class, so maximal munch is exact. -/

/-- Case-sensitive `([A-Z][a-z]+)`: one ASCII upper letter followed by
one or more ASCII lower letters.  Returns the captured characters and
the rest of the input. -/
def matchNameCS : List Char → Option (List Char × List Char)
  | c :: rest =>
    if isAsciiUpper c then
      let ls := rest.takeWhile isAsciiLower
      if ls.isEmpty then none else some (c :: ls, rest.dropWhile isAsciiLower)
    else none
  | [] => none

/-- `([A-Z][a-z]+)` under the `i` flag: any ASCII letter followed by one
or more ASCII letters. -/
def matchNameCI : List Char → Option (List Char × List Char)
  | c :: rest =>
    if isAsciiLetter c then
      let ls := rest.takeWhile isAsciiLetter
      if ls.isEmpty then none else some (c :: ls, rest.dropWhile isAsciiLetter)
    else none
  | [] => none

/-- `\s+`: one or more whitespace characters. -/
def matchSpaces1 (cs : List Char) : Option (List Char) :=
  let sp := cs.takeWhile isSpaceChar
  if sp.isEmpty then none else some (cs.dropWhile isSpaceChar)

/-- First literal of `alts` (in order, as in a JS alternation) that is a
prefix of the input; returns the input after it. -/
def matchAlt (alts : List String) (cs : List Char) : Option (List Char) :=
  match alts with
  | [] => none
  | a :: rest =>
    if a.data.isPrefixOf cs then some (cs.drop a.data.length)
    else matchAlt rest cs

/-- Case-insensitive literal prefix; returns the input after it. -/
def ciPrefix : List Char → List Char → Option (List Char)
  | [], cs => some cs
  | _, [] => none
  | p :: ps, c :: cs => if p.toLower == c.toLower then ciPrefix ps cs else none

/-- `/\b([A-Z][a-z]+)\s+(v1|v2|...)/g` — character patterns 1 and 2 of
`extractCharacters` (name followed by a speech or movement verb). -/
def tryNameVerb (verbs : List String) (prev : Option Char) (cs : List Char) :
    Option (String × List Char) :=
  if boundaryBeforeWord prev then
    match matchNameCS cs with
    | some (name, r1) =>
      match matchSpaces1 r1 with
      | some r2 =>
        match matchAlt verbs r2 with
        | some r3 => some (String.mk name, r3)
        | none => none
      | none => none
    | none => none
  else none

/-- `/\b([A-Z][a-z]+)'s\s+/g` — character pattern 3 of
`extractCharacters` (possessive). -/
def tryPossessive (prev : Option Char) (cs : List Char) :
    Option (String × List Char) :=
  if boundaryBeforeWord prev then
    match matchNameCS cs with
    | some (name, r1) =>
      match r1 with
      | '\'' :: 's' :: r2 =>
        match matchSpaces1 r2 with
        | some r3 => some (String.mk name, r3)
        | none => none
      | _ => none
    | none => none
  else none

/-- `/\btitle\.?\s+([A-Z][a-z]+)/gi` — character patterns 4-7 of
`extractCharacters` (titled names; `optDot` is whether the regex has the
optional dot after the title, present for `dr`, `mr`, `ms` and absent
for `professor`). -/
def tryTitleName (title : String) (optDot : Bool) (prev : Option Char)
    (cs : List Char) : Option (String × List Char) :=
  if boundaryBeforeWord prev then
    match ciPrefix title.data cs with
    | some r1 =>
      let r1d := if optDot then (match r1 with | '.' :: rest => rest | _ => r1) else r1
      match matchSpaces1 r1d with
      | some r2 =>
        match matchNameCI r2 with
        | some (name, r3) => some (String.mk name, r3)
        | none => none
      | none => none
    | none => none
  else none

/-- One step bound of `text.matchAll(pattern)`: try the matcher at each
position left to right; on a match, record the capture and resume right
after the matched text (JS advances `lastIndex` to the match end).  The
fuel argument is an upper bound on the number of scan steps. -/
def scanAllAux (tryM : Option Char → List Char → Option (String × List Char)) :
    Nat → Option Char → List Char → List String
  | 0, _, _ => []
  | _ + 1, _, [] => []
  | fuel + 1, prev, c :: rest =>
    match tryM prev (c :: rest) with
    | none => scanAllAux tryM fuel (some c) rest
    | some (name, r) =>
      let consumed := (c :: rest).take ((c :: rest).length - r.length)
      name :: scanAllAux tryM fuel (consumed.getLast?.getD c) r

/-- All captures of one pattern over the whole text, in order
(`text.matchAll(pattern)` followed by reading `match[1]`). -/
def scanAll (tryM : Option Char → List Char → Option (String × List Char))
    (cs : List Char) : List String :=
  scanAllAux tryM (cs.length + 1) none cs

/-! ### extractCharacters and the keyword extractors -/

def speechVerbs : List String := ["said", "says", "asked", "replied", "whispered", "shouted"]

def movementVerbs : List String := ["walked", "ran", "smiled", "frowned", "looked", "turned"]

/-- The ordered `characterPatterns` array of `extractCharacters`. -/
def characterMatchers : List (Option Char → List Char → Option (String × List Char)) :=
  [ tryNameVerb speechVerbs,
    tryNameVerb movementVerbs,
    tryPossessive,
    tryTitleName "professor" false,
    tryTitleName "dr" true,
    tryTitleName "mr" true,
    tryTitleName "ms" true ]

/-- `extractCharacters(text)` (Stage.tsx lines 534-559): for each
pattern in order, every captured name longer than 2 characters is kept
once (first occurrence), and the merged list is truncated to
`maxCharacters` (`characters.slice(0, this.maxCharacters)`). -/
def extractCharacters (maxCharacters : Nat) (text : String) : List String :=
  let cs := text.data
  let allMatches := characterMatchers.foldl (fun acc m => acc ++ scanAll m cs) []
  let characters := allMatches.foldl
    (fun characters name =>
      if name.length > 2 && !(characters.contains name) then characters ++ [name]
      else characters)
    []
  characters.take maxCharacters

/-- `pat` occurs as a contiguous substring of the text — JS
`text.includes(pat)`. -/
def containsSub (needle : List Char) : List Char → Bool
  | [] => needle.isEmpty
  | c :: rest => needle.isPrefixOf (c :: rest) || containsSub needle rest

/-- First table entry (in insertion order, as `Object.entries` iterates)
whose keyword occurs in the text; empty string when none matches. -/
def firstKeywordMatch (table : List (String × String)) (text : String) : String :=
  match table.find? (fun kv => containsSub kv.1.data text.data) with
  | some kv => kv.2
  | none => ""

/-- `locationKeywords` of `extractLocation` (Stage.tsx lines 562-581). -/
def locationKeywords : List (String × String) :=
  [ ("classroom", "classroom"), ("library", "library"), ("cafeteria", "cafeteria"),
    ("dormitory", "dormitory"), ("dorm", "dormitory"), ("office", "office"),
    ("campus", "university campus"), ("courtyard", "courtyard"),
    ("auditorium", "auditorium"), ("laboratory", "laboratory"), ("lab", "laboratory"),
    ("garden", "garden"), ("hallway", "hallway"), ("corridor", "corridor"),
    ("rooftop", "rooftop"), ("parking", "parking lot"), ("field", "sports field"),
    ("gym", "gymnasium") ]

def extractLocation (text : String) : String :=
  firstKeywordMatch locationKeywords text

/-- `actionKeywords` of `extractActions` (Stage.tsx lines 593-613). -/
def actionKeywords : List (String × String) :=
  [ ("studying", "studying"), ("reading", "reading"), ("writing", "writing"),
    ("walking", "walking"), ("running", "running"), ("sitting", "sitting"),
    ("standing", "standing"), ("talking", "having a conversation"),
    ("discussing", "discussing"), ("arguing", "arguing"), ("laughing", "laughing"),
    ("crying", "crying"), ("eating", "eating"), ("drinking", "drinking"),
    ("meeting", "meeting"), ("presentation", "giving presentation"),
    ("lecture", "attending lecture"), ("exam", "taking exam"), ("test", "taking test") ]

def extractActions (text : String) : String :=
  firstKeywordMatch actionKeywords text

/-- `moodKeywords` of `extractMood` (Stage.tsx lines 625-640). -/
def moodKeywords : List (String × String) :=
  [ ("happy", "joyful"), ("sad", "melancholic"), ("angry", "tense"),
    ("excited", "energetic"), ("nervous", "anxious"), ("calm", "peaceful"),
    ("worried", "concerned"), ("surprised", "surprised"), ("confused", "puzzled"),
    ("romantic", "romantic"), ("serious", "serious"), ("playful", "playful"),
    ("dramatic", "dramatic"), ("intense", "intense") ]

def extractMood (text : String) : String :=
  firstKeywordMatch moodKeywords text

/-- `timeKeywords` of `extractTimeOfDay` (Stage.tsx lines 652-664). -/
def timeKeywords : List (String × String) :=
  [ ("morning", "morning"), ("dawn", "dawn"), ("sunrise", "sunrise"),
    ("afternoon", "afternoon"), ("noon", "midday"), ("evening", "evening"),
    ("sunset", "sunset"), ("night", "night"), ("midnight", "midnight"),
    ("dusk", "dusk"), ("twilight", "twilight") ]

def extractTimeOfDay (text : String) : String :=
  firstKeywordMatch timeKeywords text

/-! ### Data model -/

/-- `SceneContext` (Stage.tsx lines 42-48). -/
structure SceneContext where
  characters : List String
  location : String
  actions : String
  mood : String
  timeOfDay : String
deriving Repr, DecidableEq

/-- `CharacterReference` (Stage.tsx lines 50-56). -/
structure CharacterReference where
  characterId : String
  name : String
  avatarUrl : String
  galleryImages : List String
  description : String
deriving Repr, DecidableEq

/-- The `generationStats` record of `VisualComposerState`. -/
structure GenerationStats where
  totalGenerations : Nat
  successfulGenerations : Nat
  lastError : Option String
deriving Repr, DecidableEq

/-- `VisualComposerState` (Stage.tsx lines 58-74).  The display-only
`sceneDetails : any` field and `currentNarrative` copies of chat text are
kept as an opaque string / dropped where they never influence the
composer logic; `currentNarrative` is retained since `setState` writes
it. -/
structure VisualComposerState where
  currentNarrative : String
  isGenerating : Bool
  lastGeneratedImage : Option String
  sceneContext : Option SceneContext
  availableCharacters : List CharacterReference
  generationProgress : String
  errorMessage : Option String
  isRefining : Bool
  lastGenerationTime : Option Nat
  generationStats : GenerationStats
deriving Repr, DecidableEq

/-- The configuration fields of the stage that the composer reads
(constructor, Stage.tsx lines 100-105, already defaulted). -/
structure StageConfig where
  chubApiKey : String
  maxCharacters : Nat
  sceneStyle : String
  enableRefinement : Bool
deriving Repr, DecidableEq

/-- The constructor's initial `visualState` (Stage.tsx lines 114-130). -/
def initialVisualState : VisualComposerState :=
  { currentNarrative := ""
    isGenerating := false
    lastGeneratedImage := none
    sceneContext := none
    availableCharacters := []
    generationProgress := "Ready"
    errorMessage := none
    isRefining := false
    lastGenerationTime := none
    generationStats :=
      { totalGenerations := 0, successfulGenerations := 0, lastError := none } }

/-! ### parseSceneContext and prompt composition -/

/-- `getRecentMessages(count)` (Stage.tsx lines 527-532) is a stub that
always returns the empty message list. -/
def getRecentMessages (count : Nat) : List String := []

/-- `parseSceneContext` (Stage.tsx lines 496-525) applied to the recent
message contents: the messages are joined with spaces, lower-cased, run
through the five extractors, and every empty field falls back to its
configured default. -/
def parseSceneContext (maxCharacters : Nat) (recentMessages : List String) :
    SceneContext :=
  let combinedText := toLowerCase (String.intercalate " " recentMessages)
  let characters := extractCharacters maxCharacters combinedText
  let location := extractLocation combinedText
  let actions := extractActions combinedText
  let mood := extractMood combinedText
  let timeOfDay := extractTimeOfDay combinedText
  { characters := if characters.length > 0 then characters else ["main character"]
    location := jsOrDefault location "university campus"
    actions := jsOrDefault actions "conversation"
    mood := jsOrDefault mood "neutral"
    timeOfDay := jsOrDefault timeOfDay "day" }

/-- `createScenePrompt` (Stage.tsx lines 675-677). -/
def createScenePrompt (sceneStyle : String) (context : SceneContext) : String :=
  sceneStyle ++ " scene: " ++ String.intercalate " and " context.characters ++ " " ++
    context.actions ++ " at " ++ context.location ++ ", " ++ context.mood ++
    " mood, " ++ context.timeOfDay ++ " lighting, high quality, detailed"

/-- The result of `verifyImage` (Stage.tsx lines 471-484). -/
structure VerificationResult where
  needsImprovement : Bool
  issues : List String
deriving Repr, DecidableEq

/-- `verifyImage` (Stage.tsx lines 471-484).  The placeholder decision
`Math.random() > 0.7` is supplied by the environment as
`randNeedsImprovement`; the issue list is the fixed pair pushed when
improvement is needed. -/
def verifyImage (randNeedsImprovement : Bool) : VerificationResult :=
  { needsImprovement := randNeedsImprovement
    issues :=
      if randNeedsImprovement then
        ["Character positioning could be improved", "Lighting needs enhancement"]
      else [] }

/-- `generateFeedback` (Stage.tsx lines 486-489). -/
def generateFeedback (verificationResult : VerificationResult)
    (sceneContext : SceneContext) : String :=
  String.intercalate ", " verificationResult.issues ++ ". Focus on " ++
    sceneContext.mood ++ " atmosphere."

/-- `createRefinedPrompt` (Stage.tsx lines 491-494). -/
def createRefinedPrompt (sceneStyle : String) (sceneContext : SceneContext)
    (feedback : String) : String :=
  createScenePrompt sceneStyle sceneContext ++ ", improved composition, " ++
    feedback ++ ", masterpiece quality"

/-! ### Character references -/

/-- `fetchCharacterReference` (Stage.tsx lines 193-198): the gallery
lookup is disabled and always reports not-found. -/
def fetchCharacterReference (characterName : String) : Option CharacterReference :=
  none

/-- `enrichSceneWithCharacterRefs` (Stage.tsx lines 200-220).  Returns
the enriched context together with the `characterRefs` list that the
caller stores into `availableCharacters`. -/
def enrichSceneWithCharacterRefs (sceneContext : SceneContext) :
    SceneContext × List CharacterReference :=
  let step := fun (acc : List String × List CharacterReference) (characterName : String) =>
    match fetchCharacterReference characterName with
    | some characterRef => (acc.1 ++ [characterRef.name], acc.2 ++ [characterRef])
    | none => (acc.1 ++ [characterName], acc.2)
  let enriched := sceneContext.characters.foldl step ([], [])
  ({ sceneContext with characters := enriched.1 }, enriched.2)

/-- `getBestCharacterReference` (Stage.tsx lines 403-417): no reference
when the list is empty, otherwise the primary character's first gallery
image, falling back to its avatar. -/
def getBestCharacterReference (availableCharacters : List CharacterReference) :
    Option String :=
  match availableCharacters with
  | [] => none
  | primaryCharacter :: _ =>
    match primaryCharacter.galleryImages with
    | g :: _ => some g
    | [] => some primaryCharacter.avatarUrl

/-! ### generateSceneImage: the generation job client -/

/-- The fields of the initial `/images/...` response that
`generateSceneImage` reads (Stage.tsx lines 267-279). -/
structure SubmitData where
  generation_uuid : Option String
  is_done : Bool
  primary_image_path : Option String
deriving Repr, DecidableEq

/-- The fields of a `/check` response that the poll loop reads
(Stage.tsx lines 303-318). -/
structure CheckData where
  is_done : Bool
  status : Option String
  state : Option String
  primary_image_path : Option String
  image_url : Option String
  url : Option String
  images : Option (List String)
  is_failed : Bool
deriving Repr, DecidableEq

/-- Network behaviour for one `generateSceneImage` invocation: the
submit response and, for each poll attempt number, the `/check`
response.  `Except.error` stands for a thrown network or parse error. -/
structure GenEnv where
  submit : Except Unit SubmitData
  oracle : Nat → Except Unit CheckData

/-- Canonical outcome of normalising one `/check` response. -/
inductive PollStep where
  | done : String → PollStep
  | failed : PollStep
  | pending : PollStep
deriving Repr, DecidableEq

/-- The completed-result extraction of the poll loop (Stage.tsx
lines 308-315): `primary_image_path || image_url || url` when truthy,
else the first element of `images` when that array is non-empty. -/
def checkCompletedUrl (result : CheckData) : Option String :=
  let imageUrl := jsOrStr (jsOrStr result.primary_image_path result.image_url) result.url
  if strTruthy imageUrl then imageUrl
  else
    match result.images with
    | some (x :: _) => some x
    | _ => none

/-- Status normalisation of one `/check` response (Stage.tsx
lines 307-318): several alternately-named completion and failure fields
are folded into done/failed/pending; a completion indicator without any
result URL falls through and the loop keeps polling. -/
def checkPollResponse (result : CheckData) : PollStep :=
  if result.is_done || result.status == some "completed" ||
      result.state == some "completed" then
    match checkCompletedUrl result with
    | some u => .done u
    | none => .pending
  else if result.is_failed || result.status == some "failed" ||
      result.state == some "error" then
    .failed
  else
    .pending

/-- `maxAttempts` of the poll loop (Stage.tsx line 282). -/
def maxAttempts : Nat := 60

/-- The poll loop (Stage.tsx lines 285-323) from attempt number
`attempt` with the given number of attempts remaining.  Each iteration
issues exactly one `/check` call (counted in the second component); a
thrown poll error is caught and treated like a pending status;
exhausting the attempts yields the timeout result `none`. -/
def pollFrom (oracle : Nat → Except Unit CheckData) :
    Nat → Nat → Option String × Nat
  | _, 0 => (none, 0)
  | attempt, remaining + 1 =>
    match oracle attempt with
    | .error _ =>
      let rest := pollFrom oracle (attempt + 1) remaining
      (rest.1, rest.2 + 1)
    | .ok result =>
      match checkPollResponse result with
      | .done u => (some u, 1)
      | .failed => (none, 1)
      | .pending =>
        let rest := pollFrom oracle (attempt + 1) remaining
        (rest.1, rest.2 + 1)

/-- Observable outcome of one `generateSceneImage` invocation:
the returned value, the endpoint of the submit request (`none` when no
network request was made at all), and the number of poll calls. -/
structure GenResult where
  result : Option String
  endpoint : Option String
  pollCalls : Nat
deriving Repr, DecidableEq

/-- Endpoint selection (Stage.tsx line 230): img2img exactly when a
truthy reference URL is supplied. -/
def endpointFor (referenceUrl : Option String) : String :=
  if strTruthy referenceUrl then "/images/img2img" else "/images/text2img"

/-- The body of the `try` block of `generateSceneImage` (Stage.tsx
lines 253-326) with the thrown-exception channel explicit: a submit
error propagates (`Except.error`), the missing-uuid and short-circuit
branches return immediately, and otherwise the poll loop runs. -/
def generateSceneImageTryBody (apiKey prompt : String)
    (referenceUrl : Option String) (env : GenEnv) : Except Unit GenResult :=
  let endpoint := endpointFor referenceUrl
  match env.submit with
  | .error e => .error e
  | .ok data =>
    if !(strTruthy data.generation_uuid) then
      .ok { result := none, endpoint := some endpoint, pollCalls := 0 }
    else if data.is_done && strTruthy data.primary_image_path then
      .ok { result := data.primary_image_path, endpoint := some endpoint, pollCalls := 0 }
    else
      let pr := pollFrom env.oracle 1 maxAttempts
      .ok { result := pr.1, endpoint := some endpoint, pollCalls := pr.2 }

/-- `generateSceneImage` (Stage.tsx lines 223-331) with the exception
channel still explicit: an `Except.error` value here would be an
exception escaping to the caller.  The missing-key guard returns before
any network request; the outer `catch` turns every escaped error into
the `null` result. -/
def generateSceneImageCall (apiKey prompt : String)
    (referenceUrl : Option String) (env : GenEnv) : Except Unit GenResult :=
  if apiKey = "" then
    .ok { result := none, endpoint := none, pollCalls := 0 }
  else
    match generateSceneImageTryBody apiKey prompt referenceUrl env with
    | .ok r => .ok r
    | .error _ => .ok { result := none, endpoint := some (endpointFor referenceUrl), pollCalls := 0 }

/-- `generateSceneImage` as the caller sees it (a plain value). -/
def generateSceneImage (apiKey prompt : String) (referenceUrl : Option String)
    (env : GenEnv) : GenResult :=
  match generateSceneImageCall apiKey prompt referenceUrl env with
  | .ok r => r
  | .error _ => { result := none, endpoint := none, pollCalls := 0 }

/-! ### captureScene: the orchestrator -/

/-- Environment for one `captureScene` invocation: the current clock
value (`Date.now()`) and the network behaviour of the base generation
call. -/
structure CaptureEnv where
  now : Nat
  gen : GenEnv

/-- Environment for one deferred refinement pass: the `Math.random() >
0.7` verification outcome and the network behaviour of the refined
generation call. -/
structure RefineEnv where
  needsImprovement : Bool
  gen : GenEnv

/-- Observable trace of one `captureScene` invocation: the reference
URL handed to the base generation, the base generation's outcome
(`none` when the invocation was a single-flight no-op and generation
never ran), and the scheduled refinement call's arguments (`none` when
no refinement was scheduled). -/
structure CaptureTrace where
  referenceUrl : Option String
  genResult : Option GenResult
  refinement : Option (String × SceneContext)
deriving Repr, DecidableEq

/-- `captureScene` (Stage.tsx lines 334-401) as a state transformer.
The steps mirror the source order: the single-flight guard, setting the
in-flight flag and progress label, clearing the error and bumping
`totalGenerations`, parsing and enriching the scene context, composing
the prompt, picking the best reference, generating, and then the
success/failure branch; `finally` clears the in-flight flag.  The
deferred refinement body and the delayed progress reset run after this
invocation returns and are modelled separately
(`runRefinement`); the trace records whether and with which arguments
`startRefinementProcess` was called.  The `catch` branch of the source
is unreachable here because every inner step is total
(`generateSceneImage` already catches its own errors). -/
def captureScene (cfg : StageConfig) (env : CaptureEnv)
    (s : VisualComposerState) : VisualComposerState × CaptureTrace :=
  if s.isGenerating then
    (s, { referenceUrl := none, genResult := none, refinement := none })
  else
    let s1 := { s with isGenerating := true,
                       generationProgress := "Analyzing scene context..." }
    let s2 := { s1 with
                errorMessage := none
                generationStats :=
                  { s1.generationStats with
                    totalGenerations := s1.generationStats.totalGenerations + 1 }
                lastGenerationTime := some env.now }
    let basicSceneContext := parseSceneContext cfg.maxCharacters (getRecentMessages 10)
    let s3 := { s2 with generationProgress := "Fetching character references..." }
    let enriched := enrichSceneWithCharacterRefs basicSceneContext
    let s4 := { s3 with availableCharacters := enriched.2,
                        sceneContext := some enriched.1 }
    let initialPrompt := createScenePrompt cfg.sceneStyle enriched.1
    let referenceUrl := getBestCharacterReference s4.availableCharacters
    let s5 := { s4 with generationProgress := "Generating scene image..." }
    let g := generateSceneImage cfg.chubApiKey initialPrompt referenceUrl env.gen
    let s6 :=
      if strTruthy g.result then
        { s5 with lastGeneratedImage := g.result
                  generationProgress := "Scene captured successfully!"
                  generationStats :=
                    { s5.generationStats with
                      successfulGenerations := s5.generationStats.successfulGenerations + 1 } }
      else
        { s5 with generationProgress := "Generation failed"
                  errorMessage := some "Image generation failed - check API connection"
                  generationStats :=
                    { s5.generationStats with lastError := some "Generation returned null" } }
    let refinement :=
      if strTruthy g.result && (cfg.enableRefinement && !s5.isRefining) then
        some (g.result.getD "", enriched.1)
      else none
    let s7 := { s6 with isGenerating := false }
    (s7, { referenceUrl := referenceUrl, genResult := some g, refinement := refinement })

/-- The deferred body of `startRefinementProcess` (Stage.tsx
lines 419-469), which runs once the 2-second timer fires: set the
refining flag, verify, and either regenerate with the base image as
img2img reference (counting a success into `successfulGenerations`)
or report that no refinement is needed; `finally` clears the refining
flag.  The trailing progress-reset timer is outside the invocation. -/
def runRefinement (cfg : StageConfig) (renv : RefineEnv) (imageUrl : String)
    (sceneContext : SceneContext) (s : VisualComposerState) : VisualComposerState :=
  let s1 := { s with isRefining := true,
                     generationProgress := "Starting refinement process..." }
  let verificationResult := verifyImage renv.needsImprovement
  let s2 :=
    if verificationResult.needsImprovement then
      let feedback := generateFeedback verificationResult sceneContext
      let refinedPrompt := createRefinedPrompt cfg.sceneStyle sceneContext feedback
      let s1a := { s1 with generationProgress := "Refining image..." }
      let g := generateSceneImage cfg.chubApiKey refinedPrompt (some imageUrl) renv.gen
      if strTruthy g.result then
        { s1a with lastGeneratedImage := g.result
                   generationProgress := "Refinement complete!"
                   generationStats :=
                     { s1a.generationStats with
                       successfulGenerations :=
                         s1a.generationStats.successfulGenerations + 1 } }
      else
        { s1a with generationProgress := "Refinement failed"
                   errorMessage := some "Refinement generation failed" }
    else
      { s1 with generationProgress := "Image quality verified - no refinement needed" }
  { s2 with isRefining := false }

/-- One full capture followed by whatever refinement it scheduled: the
deferred `startRefinementProcess` body runs (with the image URL and
scene context the capture passed it) after the capture invocation has
finished. -/
def captureWithRefinement (cfg : StageConfig) (env : CaptureEnv)
    (renv : RefineEnv) (s : VisualComposerState) : VisualComposerState :=
  let stepped := captureScene cfg env s
  match stepped.2.refinement with
  | some args => runRefinement cfg renv args.1 args.2 stepped.1
  | none => stepped.1

/-! ### Concrete inputs used by the claim theorems -/

/-- A `/check` response none of whose completion or failure fields is
set: the loop treats it as still pending. -/
def stillPendingB : Except Unit CheckData → Bool
  | .error _ => true
  | .ok d => checkPollResponse d == PollStep.pending

/-- A submit response that already carries the finished image (the
synchronous-completion short circuit). -/
def quickDoneEnv (u : String) : GenEnv :=
  { submit := .ok { generation_uuid := some "uuid", is_done := true,
                    primary_image_path := some u }
    oracle := fun _ => .error () }

def c1Cfg : StageConfig :=
  { chubApiKey := "key", maxCharacters := 3, sceneStyle := "cinematic",
    enableRefinement := true }

def c1Env : CaptureEnv := { now := 0, gen := quickDoneEnv "http://img1" }

def c1Renv : RefineEnv := { needsImprovement := true, gen := quickDoneEnv "http://img2" }

def c2InputText : String :=
  "Professor Smith said hello in the library at sunset, a romantic mood fills the room"

/-- The scene context the claim says the input text yields (capitalised
name). -/
def c2ClaimedContext : SceneContext :=
  { characters := ["Smith"], location := "library", actions := "conversation",
    mood := "romantic", timeOfDay := "sunset" }

def c3PendingCheck : CheckData :=
  { is_done := false, status := none, state := none, primary_image_path := none,
    image_url := none, url := none, images := none, is_failed := false }

def c3Env : GenEnv :=
  { submit := .ok { generation_uuid := some "u", is_done := false,
                    primary_image_path := none }
    oracle := fun _ => .ok c3PendingCheck }

/-- A submit response with a completion indicator and a result URL but
no job identifier. -/
def c4NoUuidEnv : GenEnv :=
  { submit := .ok { generation_uuid := none, is_done := true,
                    primary_image_path := some "http://img" }
    oracle := fun _ => .error () }

def c4OkEnv : GenEnv :=
  { submit := .ok { generation_uuid := some "u", is_done := true,
                    primary_image_path := some "http://img" }
    oracle := fun _ => .error () }

def c5State : VisualComposerState := { initialVisualState with isGenerating := true }

def c5Cfg : StageConfig :=
  { chubApiKey := "key", maxCharacters := 3, sceneStyle := "cinematic",
    enableRefinement := true }

def c5Env : CaptureEnv := { now := 7, gen := quickDoneEnv "http://img" }

def c6Cfg : StageConfig :=
  { chubApiKey := "key", maxCharacters := 3, sceneStyle := "cinematic",
    enableRefinement := false }

def c6Env : CaptureEnv := { now := 0, gen := quickDoneEnv "http://img" }

def c10Env : GenEnv :=
  { submit := .ok { generation_uuid := none, is_done := true,
                    primary_image_path := some "http://img" }
    oracle := fun _ => .error () }

/-! ### Helper lemmas -/

/-- The enrichment fold, with the lookup stub always returning
not-found, appends every character name unchanged and collects no
references. -/
theorem enrich_foldl_append (l : List String) (acc1 : List String)
    (acc2 : List CharacterReference) :
    l.foldl
      (fun (acc : List String × List CharacterReference) (characterName : String) =>
        (acc.1 ++ [characterName], acc.2))
      (acc1, acc2) = (acc1 ++ l, acc2) := by
  induction l generalizing acc1 with
  | nil => simp
  | cons x xs ih => simp [ih]

/-- `enrichSceneWithCharacterRefs` is the identity on the context and
returns no references. -/
theorem enrich_identity (sceneContext : SceneContext) :
    enrichSceneWithCharacterRefs sceneContext = (sceneContext, []) := by
  unfold enrichSceneWithCharacterRefs
  simp only [fetchCharacterReference]
  rw [enrich_foldl_append]
  simp

/-- A poll loop all of whose responses are pending or thrown errors
runs through all its remaining attempts, makes exactly one call per
attempt, and ends with the timeout result. -/
theorem pollFrom_all_pending (oracle : Nat → Except Unit CheckData)
    (hp : ∀ n, stillPendingB (oracle n) = true) :
    ∀ k a, pollFrom oracle a k = (none, k) := by
  intro k
  induction k with
  | zero => intro a; rfl
  | succ k ih =>
    intro a
    cases ho : oracle a with
    | error e => simp [pollFrom, ho, ih]
    | ok d =>
      have hpd : checkPollResponse d = PollStep.pending := by
        have h := hp a
        rw [ho] at h
        simpa [stillPendingB] using h
      simp [pollFrom, ho, hpd, ih]

/-! ### Claim theorems -/

/-- Claim C1 (code_bug): the claimed invariant
`successfulGenerations ≤ totalGenerations` is violated by the code.  A
single capture whose base generation succeeds, followed by its
scheduled refinement pass whose regeneration also succeeds, leaves the
statistics at 1 total and 2 successful generations: the refinement
success path increments `successfulGenerations` without touching
`totalGenerations`. -/
theorem c1_stats_invariant_violated :
    (captureWithRefinement c1Cfg c1Env c1Renv initialVisualState).generationStats.totalGenerations = 1 ∧
    (captureWithRefinement c1Cfg c1Env c1Renv initialVisualState).generationStats.successfulGenerations = 2 ∧
    ¬ ((captureWithRefinement c1Cfg c1Env c1Renv initialVisualState).generationStats.successfulGenerations ≤
        (captureWithRefinement c1Cfg c1Env c1Renv initialVisualState).generationStats.totalGenerations) := by
  decide

/-- Claim C2 (counterexample): on the claimed input text the extraction
does NOT return the context with the capitalised name "Smith", because
`parseSceneContext` lower-cases the combined text before the character
patterns run. -/
theorem c2_extraction_claim_false :
    parseSceneContext 3 [c2InputText] ≠ c2ClaimedContext := by
  decide

/-- Claim C2 (amended): on the claimed input text the extraction
returns exactly the claimed location, mood, time of day and default
actions, but with the character name lower-cased to "smith" (the
combined text is lower-cased before the patterns run, and the titled
pattern `/\bprofessor\s+([A-Z][a-z]+)/gi` is case-insensitive). -/
theorem c2_extraction_lowercased :
    parseSceneContext 3 [c2InputText] =
      { characters := ["smith"], location := "library", actions := "conversation",
        mood := "romantic", timeOfDay := "sunset" } := by
  decide

/-- Claim C3: when every poll response is still-pending or a thrown
poll error, a submitted job (uuid present, no synchronous completion)
polls exactly `maxAttempts` = 60 times — no poll error aborts the loop
early — and ends with the timeout result `none`. -/
theorem c3_timeout_exhausts_attempts (apiKey prompt : String)
    (referenceUrl : Option String) (env : GenEnv) (d : SubmitData)
    (hk : apiKey ≠ "") (hs : env.submit = .ok d)
    (hu : strTruthy d.generation_uuid = true)
    (hnd : (d.is_done && strTruthy d.primary_image_path) = false)
    (hp : ∀ n, stillPendingB (env.oracle n) = true) :
    generateSceneImage apiKey prompt referenceUrl env =
      { result := none, endpoint := some (endpointFor referenceUrl),
        pollCalls := maxAttempts } ∧
    (generateSceneImage apiKey prompt referenceUrl env).pollCalls ≤ maxAttempts := by
  have hpoll : pollFrom env.oracle 1 maxAttempts = (none, maxAttempts) :=
    pollFrom_all_pending env.oracle hp maxAttempts 1
  have h1 : generateSceneImage apiKey prompt referenceUrl env =
      { result := none, endpoint := some (endpointFor referenceUrl),
        pollCalls := maxAttempts } := by
    unfold generateSceneImage generateSceneImageCall generateSceneImageTryBody
    simp [hk, hs, hu, hnd, hpoll]
  exact ⟨h1, by rw [h1]⟩

theorem c3_timeout_exhausts_attempts_witness :
    generateSceneImage "key" "p" none c3Env =
      { result := none, endpoint := some (endpointFor none),
        pollCalls := maxAttempts } ∧
    (generateSceneImage "key" "p" none c3Env).pollCalls ≤ maxAttempts :=
  c3_timeout_exhausts_attempts "key" "p" none c3Env
    { generation_uuid := some "u", is_done := false, primary_image_path := none }
    (by decide) rfl (by decide) (by decide) (fun _ => rfl)

/-- Claim C4 (counterexample): a submission whose initial response
carries the completion indicator and a result URL but no
`generation_uuid` does NOT return that result — the uuid check runs
first and yields the failure result. -/
theorem c4_short_circuit_claim_false :
    ¬ ((generateSceneImage "key" "p" none c4NoUuidEnv).result = some "http://img" ∧
       (generateSceneImage "key" "p" none c4NoUuidEnv).pollCalls = 0) := by
  decide

/-- Claim C4 (amended): a submission whose initial response carries a
job identifier together with the completion indicator and a truthy
result URL short-circuits: the result is returned immediately and zero
poll calls are made. -/
theorem c4_short_circuit_with_uuid (apiKey prompt : String)
    (referenceUrl : Option String) (env : GenEnv) (d : SubmitData)
    (hk : apiKey ≠ "") (hs : env.submit = .ok d)
    (hu : strTruthy d.generation_uuid = true)
    (hd : d.is_done = true) (hp : strTruthy d.primary_image_path = true) :
    generateSceneImage apiKey prompt referenceUrl env =
      { result := d.primary_image_path, endpoint := some (endpointFor referenceUrl),
        pollCalls := 0 } := by
  unfold generateSceneImage generateSceneImageCall generateSceneImageTryBody
  simp [hk, hs, hu, hd, hp]

theorem c4_short_circuit_with_uuid_witness :
    generateSceneImage "key" "p" none c4OkEnv =
      { result := some "http://img", endpoint := some (endpointFor none),
        pollCalls := 0 } :=
  c4_short_circuit_with_uuid "key" "p" none c4OkEnv
    { generation_uuid := some "u", is_done := true, primary_image_path := some "http://img" }
    (by decide) rfl (by decide) rfl (by decide)

/-- Claim C5: invoking capture while `isGenerating` is true is a
complete no-op — the state (in-flight flag, counters and all) is
returned unchanged and nothing is generated or scheduled. -/
theorem c5_single_flight_noop (cfg : StageConfig) (env : CaptureEnv)
    (s : VisualComposerState) (h : s.isGenerating = true) :
    captureScene cfg env s =
      (s, { referenceUrl := none, genResult := none, refinement := none }) := by
  simp [captureScene, h]

theorem c5_single_flight_noop_witness :
    captureScene c5Cfg c5Env c5State =
      (c5State, { referenceUrl := none, genResult := none, refinement := none }) :=
  c5_single_flight_noop c5Cfg c5Env c5State (by decide)

/-- Claim C6: when the refinement-enabled flag is false, no execution
of capture schedules a refinement pass, whatever the environment,
state, and verification outcome. -/
theorem c6_refinement_disabled_never_scheduled (cfg : StageConfig)
    (env : CaptureEnv) (s : VisualComposerState)
    (h : cfg.enableRefinement = false) :
    (captureScene cfg env s).2.refinement = none := by
  cases hg : s.isGenerating <;> simp [captureScene, hg, h]

theorem c6_refinement_disabled_never_scheduled_witness :
    (captureScene c6Cfg c6Env initialVisualState).2.refinement = none :=
  c6_refinement_disabled_never_scheduled c6Cfg c6Env initialVisualState (by decide)

/-- Claim C7: with the API key empty, image generation returns the
failure result immediately and makes no network call: no submit request
(no endpoint is ever chosen) and zero poll calls. -/
theorem c7_missing_key_no_network (prompt : String)
    (referenceUrl : Option String) (env : GenEnv) :
    generateSceneImage "" prompt referenceUrl env =
      { result := none, endpoint := none, pollCalls := 0 } := by
  rfl

/-- Claim C8: the character-reference enrichment is the identity on the
scene context (same characters, same order) and yields no references;
the best-reference selection on the resulting empty list yields none;
consequently every capture passes no reference URL to generation, and a
missing reference URL selects the text2img endpoint. -/
theorem c8_enrichment_stub_identity :
    (∀ sceneContext, enrichSceneWithCharacterRefs sceneContext = (sceneContext, [])) ∧
    getBestCharacterReference [] = none ∧
    (∀ cfg env s, (captureScene cfg env s).2.referenceUrl = none) ∧
    endpointFor none = "/images/text2img" := by
  refine ⟨enrich_identity, rfl, ?_, rfl⟩
  intro cfg env s
  cases hg : s.isGenerating <;>
    simp [captureScene, hg, enrich_identity, getBestCharacterReference]

/-- Claim C9: for every credential, prompt, reference and remote-
service behaviour (submit error included), `generateSceneImage` raises
no exception to its caller: the exception-explicit view of the call
always returns `ok` with the plain result (a URL or `null`). -/
theorem c9_no_exception_to_caller (apiKey prompt : String)
    (referenceUrl : Option String) (env : GenEnv) :
    generateSceneImageCall apiKey prompt referenceUrl env =
      .ok (generateSceneImage apiKey prompt referenceUrl env) := by
  unfold generateSceneImage generateSceneImageCall
  by_cases h : apiKey = ""
  · simp [h]
  · simp only [if_neg h]
    cases generateSceneImageTryBody apiKey prompt referenceUrl env <;> simp

/-- Claim C10: a submission response without a truthy
`generation_uuid` yields the failure result immediately with zero poll
calls, regardless of the other response fields (completion indicator
and result URL included). -/
theorem c10_missing_uuid_aborts (apiKey prompt : String)
    (referenceUrl : Option String) (env : GenEnv) (d : SubmitData)
    (hk : apiKey ≠ "") (hs : env.submit = .ok d)
    (hu : strTruthy d.generation_uuid = false) :
    generateSceneImage apiKey prompt referenceUrl env =
      { result := none, endpoint := some (endpointFor referenceUrl),
        pollCalls := 0 } := by
  unfold generateSceneImage generateSceneImageCall generateSceneImageTryBody
  simp [hk, hs, hu]

theorem c10_missing_uuid_aborts_witness :
    generateSceneImage "key" "p" none c10Env =
      { result := none, endpoint := some (endpointFor none), pollCalls := 0 } :=
  c10_missing_uuid_aborts "key" "p" none c10Env
    { generation_uuid := none, is_done := true, primary_image_path := some "http://img" }
    (by decide) rfl (by decide)
